import Mathlib

/-!
Verification of the staleness/expiration state machine and the
Stale-While-Revalidate (SWR) wrapper of the node-ts-cache core.

The embedding follows `src/cacheContainer.ts` and `src/withCache.ts`.
Times and millisecond durations are JavaScript numbers used as integers,
modelled by `Int`; nullable numbers (`number | null`) are `Option Int`.
Stateful code is embedded by explicit state passing: the Storage Port is an
association list from keys to stored items, and every storage access is
recorded in a trace so that frame conditions ("no storage access occurs")
are statable.
-/

namespace NodeTsCache

/-- JavaScript truthiness of a `number | null` value: `null`/`undefined` and
`0` are falsy, every other integer is truthy. -/
def truthy : Option Int → Bool
  | none => false
  | some v => v != 0

/-- The `meta` field stored with every cached item
(`CachedItem.meta` in `cacheContainer.ts`): creation timestamp and the two
nullable lifetime windows. Note the stored object has exactly these keys;
in particular it has no `expired` or `stale` key. -/
structure CachedMeta where
  createdAt : Int
  ttl : Option Int
  staleTtl : Option Int
deriving Repr, DecidableEq

/-- A stored entry (`CachedItem` in `cacheContainer.ts`). -/
structure CachedItem (α : Type) where
  content : α
  meta : CachedMeta
deriving Repr, DecidableEq

/-- The Storage Port state: a keyed map, embedded as an association list.
`getItem`/`setItem`/`removeItem` of the Storage Port contract are
`alistLookup`/`alistInsert`/`alistRemove`. -/
abbrev Store (α : Type) := List (String × CachedItem α)

def alistLookup {β : Type} (l : List (String × β)) (k : String) : Option β :=
  match l with
  | [] => none
  | (k', v) :: rest => if k' = k then some v else alistLookup rest k

def alistRemove {β : Type} : List (String × β) → String → List (String × β)
  | [], _ => []
  | (k', v) :: rest, k =>
      if k' = k then alistRemove rest k else (k', v) :: alistRemove rest k

def alistInsert {β : Type} (l : List (String × β)) (k : String) (v : β) :
    List (String × β) :=
  (k, v) :: alistRemove l k

/-- One Storage Port access, for recording traces of storage effects. -/
inductive StorageOp
  | read (key : String)
  | write (key : String)
  | remove (key : String)
deriving Repr, DecidableEq

def StorageOp.isWrite : StorageOp → Bool
  | .write _ => true
  | _ => false

/-- `CacheContainer.isItemExpired`:
`ttl === null` never expires; otherwise expired iff `now > createdAt + ttl`. -/
def isItemExpired {α : Type} (now : Int) (item : CachedItem α) : Bool :=
  match item.meta.ttl with
  | none => false
  | some ttl => decide (now > item.meta.createdAt + ttl)

/-- `CacheContainer.isStaleItem`: stale requires expired-by-ttl, a non-null
`staleTtl`, and `now <= createdAt + staleTtl`. -/
def isStaleItem {α : Type} (now : Int) (item : CachedItem α) : Bool :=
  if !isItemExpired now item then false
  else
    match item.meta.staleTtl with
    | none => false
    | some s => decide (now ≤ item.meta.createdAt + s)

/-- The three temporal states computed by `CacheContainer.getItem`. -/
inductive EntryState
  | fresh
  | stale
  | expired
deriving Repr, DecidableEq

/-- The state computation inside `CacheContainer.getItem`: `stale` wins over
`expired`, everything else is `fresh` (the `if/else if/else` chain). -/
def classifyItem {α : Type} (now : Int) (item : CachedItem α) : EntryState :=
  if isStaleItem now item then .stale
  else if isItemExpired now item then .expired
  else .fresh

/-- The value returned by `CacheContainer.getItem`: the content together with
`{...item.meta, state}` — the spread of the stored meta plus the computed
state. These are exactly the keys of the returned `meta` object. -/
structure GetResult (α : Type) where
  content : α
  createdAt : Int
  ttl : Option Int
  staleTtl : Option Int
  state : EntryState
deriving Repr, DecidableEq

/-- Outcome of a `CacheContainer.getItem` call: the returned value (or
`undefined`), the Storage Port state afterwards, and the storage accesses
performed. -/
structure GetOutcome (α : Type) where
  response : Option (GetResult α)
  store : Store α
  trace : List StorageOp
deriving Repr

/-- `CacheContainer.getItem`: read the item from storage; if absent return
`undefined`. Otherwise compute the state; if the state is `expired`, remove
the key from storage (`unsetKey`) and return `undefined`; otherwise return
the content with the spread meta and state. -/
def CacheContainer.getItem {α : Type} (now : Int) (store : Store α) (key : String) :
    GetOutcome α :=
  match alistLookup store key with
  | none => { response := none, store := store, trace := [.read key] }
  | some item =>
      let state := classifyItem now item
      let result : GetResult α :=
        { content := item.content
          createdAt := item.meta.createdAt
          ttl := item.meta.ttl
          staleTtl := item.meta.staleTtl
          state := state }
      if result.state = .expired then
        { response := none, store := alistRemove store key
          trace := [.read key, .remove key] }
      else
        { response := some result, store := store, trace := [.read key] }

/-- The `staleTtl` normalization in `CacheContainer.setItem`: when
`finalOptions.staleTtl && finalOptions.ttl && staleTtl < ttl` (JavaScript
truthiness: `null` and `0` are falsy), the stored `staleTtl` becomes
`ttl + staleTtl`; otherwise the supplied value is stored unchanged. -/
def adjustStaleTtl : Option Int → Option Int → Option Int
  | some t, some st => if st != 0 && t != 0 && decide (st < t) then some (t + st) else some st
  | _, staleTtl => staleTtl

/-- Outcome of a `CacheContainer.setItem` call. -/
structure SetOutcome (α : Type) where
  store : Store α
  trace : List StorageOp
deriving Repr

/-- `CacheContainer.setItem`: stamp `createdAt = now`, apply the `staleTtl`
normalization, and write `{ meta, content }` to the Storage Port
(overwriting any previous entry for the key). -/
def CacheContainer.setItem {α : Type} (now : Int) (store : Store α) (key : String)
    (content : α) (ttl staleTtl : Option Int) : SetOutcome α :=
  let meta : CachedMeta :=
    { createdAt := now, ttl := ttl, staleTtl := adjustStaleTtl ttl staleTtl }
  { store := alistInsert store key { content := content, meta := meta }
    trace := [.write key] }

/-- A task admitted to a revalidation queue, identified by its `id` (the
cache key) and carrying a `startTime` that is unset while the task is
pending and set once the task has started running.

Modelled from the spec: the queue implementation (the `p-queue` dependency)
is not part of this repository's sources; §3 and §4.3 of the spec describe
the queue as holding "the set of currently-running or pending task
identifiers (keyed by CacheKey)", with per-task state
Pending → Running → Completed/Failed → removed. -/
structure QTask where
  id : String
  startTime : Option Int
deriving Repr, DecidableEq

/-- Modelled from the spec: a revalidation queue (`PQueue` instance) with a
mutable concurrency limit and the list of admitted, not-yet-finished tasks
(pending tasks have no `startTime`; running tasks do). The task bodies
themselves are fire-and-forget and are not part of a single call's
semantics. -/
structure PQueue where
  concurrency : Int
  runningTasks : List QTask
deriving Repr, DecidableEq

/-- The module-level registry `revalidationQueues` of `withCache.ts`:
one table for the whole process, keyed by queue name, shared by every
wrapper produced by every `withCacheFactory` invocation. -/
abbrev Registry := List (String × PQueue)

/-- The enqueue step of the SWR branch (`withCache.ts` lines 115-124): a new
task with `id := key` is added unless some task in `runningTasks` has this
`id` and a truthy `startTime`. The `add` itself is modelled from the spec
(the task is admitted as pending, with no start time yet); the guard is
taken verbatim from the source. -/
def enqueueRefresh (q : PQueue) (key : String) : PQueue :=
  if q.runningTasks.any (fun t => t.id == key && truthy t.startTime) then q
  else { q with runningTasks := q.runningTasks ++ [{ id := key, startTime := none }] }

deriving instance DecidableEq for Except

/-- Outcome of one call of a wrapped operation: the value returned to the
caller (or the propagated rejection), the Storage Port state, the queue
registry, and the storage accesses performed during the call. -/
structure CallOutput (ε α : Type) where
  result : Except ε α
  store : Store α
  queues : Registry
  trace : List StorageOp
deriving Repr, DecidableEq

/-- The `refreshedItem` closure of `withCache.ts`: run the operation; on
success, write the result through the Cache Container (with
`ttl := cacheTimeMs`, `staleTtl := staleTimeMs`) when `shouldStore` accepts
it; a rejection propagates and nothing is written. The operation's outcome
for this call is the `op` argument. -/
def refreshedItem {ε α : Type} (now : Int) (store : Store α) (key : String)
    (cacheTimeMs staleTimeMs : Int) (shouldStore : α → Bool) (op : Except ε α) :
    Except ε α × Store α × List StorageOp :=
  match op with
  | .error e => (.error e, store, [])
  | .ok v =>
      if shouldStore v then
        let s := CacheContainer.setItem now store key v (some cacheTimeMs) (some staleTimeMs)
        (.ok v, s.store, s.trace)
      else (.ok v, store, [])

/-- The `meta.expired` property access in `withCache.ts` line 106: the object
returned by `CacheContainer.getItem` has meta keys `createdAt`, `ttl`,
`staleTtl` and `state` only, so reading the absent key `expired` yields
`undefined`, which is falsy. -/
def metaExpiredField {α : Type} (_ : GetResult α) : Bool := false

/-- The `meta.stale` property access in `withCache.ts` line 113: likewise an
absent key, hence `undefined` (falsy). -/
def metaStaleField {α : Type} (_ : GetResult α) : Bool := false

/-- One call of the function returned by `withCache(operation, options)`
(`withCache.ts` lines 71-132), with the call's inputs made explicit:
`fnName`/`prfx`/`keyHash` determine the cache key and queue name,
`op` is the outcome the wrapped operation produces for these parameters,
and `store`/`queues` are the Cache Container's storage state and the
module-level queue registry at call time. Step order follows the source:
registry update, container read, disabled-check, valid-response check,
SWR check, blocking refresh. -/
def wrapperCall {ε α : Type} (now : Int) (fnName prfx keyHash : String)
    (cacheTimeMs staleTimeMs concurrency : Int) (shouldStore : α → Bool)
    (op : Except ε α) (store : Store α) (queues : Registry) : CallOutput ε α :=
  let key := fnName ++ ":" ++ prfx ++ ":" ++ keyHash
  let queueName := fnName ++ ":" ++ prfx
  let q0 := (alistLookup queues queueName).getD
    { concurrency := concurrency, runningTasks := [] }
  let queues1 := alistInsert queues queueName { q0 with concurrency := concurrency }
  let g := CacheContainer.getItem now store key
  if cacheTimeMs == 0 && staleTimeMs == 0 then
    { result := op, store := g.store, queues := queues1, trace := g.trace }
  else
    match g.response with
    | some r =>
        if !metaExpiredField r then
          { result := .ok r.content, store := g.store, queues := queues1, trace := g.trace }
        else if metaExpiredField r && metaStaleField r then
          let q1 := (alistLookup queues1 queueName).getD
            { concurrency := concurrency, runningTasks := [] }
          let queues2 := alistInsert queues1 queueName (enqueueRefresh q1 key)
          { result := .ok r.content, store := g.store, queues := queues2, trace := g.trace }
        else
          let rf := refreshedItem now g.store key cacheTimeMs staleTimeMs shouldStore op
          { result := rf.1, store := rf.2.1, queues := queues1, trace := g.trace ++ rf.2.2 }
    | none =>
        let rf := refreshedItem now g.store key cacheTimeMs staleTimeMs shouldStore op
        { result := rf.1, store := rf.2.1, queues := queues1, trace := g.trace ++ rf.2.2 }

/-! ### Helper lemmas about the association-list map operations -/

theorem alistLookup_remove_self {β : Type} (l : List (String × β)) (k : String) :
    alistLookup (alistRemove l k) k = none := by
  induction l with
  | nil => rfl
  | cons hd tl ih =>
      obtain ⟨k', v⟩ := hd
      by_cases h : k' = k
      · simpa [alistRemove, h] using ih
      · simpa [alistRemove, alistLookup, h] using ih

theorem alistLookup_remove_ne {β : Type} (l : List (String × β)) (k n : String)
    (hne : n ≠ k) : alistLookup (alistRemove l k) n = alistLookup l n := by
  have hkn : ¬(k = n) := fun hh => hne hh.symm
  induction l with
  | nil => rfl
  | cons hd tl ih =>
      obtain ⟨k', v⟩ := hd
      by_cases h : k' = k
      · simp [alistRemove, alistLookup, h, hkn, ih]
      · by_cases h2 : k' = n
        · simp [alistRemove, alistLookup, h, h2, hne]
        · simp [alistRemove, alistLookup, h, h2, ih]

theorem alistLookup_insert {β : Type} (l : List (String × β)) (k n : String) (v : β) :
    alistLookup (alistInsert l k v) n =
      if k = n then some v else alistLookup l n := by
  by_cases h : k = n
  · simp [alistInsert, alistLookup, h]
  · simp [alistInsert, alistLookup, h, alistLookup_remove_ne l k n (fun hh => h hh.symm)]

/-! ### Helper lemmas about the container and the wrapper -/

/-- Every storage access performed by `CacheContainer.getItem` is a read or a
remove, never a write. -/
theorem getItem_trace_no_writes {α : Type} (now : Int) (store : Store α) (key : String) :
    ((CacheContainer.getItem now store key).trace.all fun s => !s.isWrite) = true := by
  unfold CacheContainer.getItem
  cases alistLookup store key with
  | none => simp [StorageOp.isWrite]
  | some item =>
      by_cases h : classifyItem now item = EntryState.expired <;>
        simp [h, StorageOp.isWrite]

/-- If `getItem` finds no entry, the store is untouched. -/
theorem getItem_store_of_lookup_none {α : Type} (now : Int) (store : Store α)
    (key : String) (h : alistLookup store key = none) :
    (CacheContainer.getItem now store key).store = store := by
  unfold CacheContainer.getItem
  rw [h]

/-- The queue-registry component of one wrapper call: every control-flow path
updates the registry the same way (the SWR enqueue branch is unreachable,
because `metaExpiredField` — the read of the absent `meta.expired` key — is
always falsy): the queue named `fnName ++ ":" ++ prfx` is created if absent
and its concurrency is overwritten with the call's configured value. -/
theorem wrapperCall_queues_eq {ε α : Type} (now : Int) (fnName prfx keyHash : String)
    (cacheTimeMs staleTimeMs concurrency : Int) (shouldStore : α → Bool)
    (op : Except ε α) (store : Store α) (queues : Registry) :
    (wrapperCall now fnName prfx keyHash cacheTimeMs staleTimeMs concurrency
        shouldStore op store queues).queues
      = alistInsert queues (fnName ++ ":" ++ prfx)
          { concurrency := concurrency
            runningTasks := ((alistLookup queues (fnName ++ ":" ++ prfx)).getD
              { concurrency := concurrency, runningTasks := [] }).runningTasks } := by
  unfold wrapperCall
  cases h : (CacheContainer.getItem now store
      (fnName ++ ":" ++ prfx ++ ":" ++ keyHash)).response with
  | none => simp [h, apply_ite CallOutput.queues]
  | some r => simp [h, metaExpiredField, apply_ite CallOutput.queues]

/-! ### Claim theorems -/

/-- Claim C4: `CacheContainer.getItem` never returns an entry classified
`expired`: when the stored entry classifies as expired at read time, the
entry is removed from the Storage Port and `undefined` is returned;
otherwise the stored content is returned together with its classified state
and the Storage Port is untouched. -/
theorem c4_getItem_never_returns_expired {α : Type} (now : Int) (store : Store α)
    (key : String) (item : CachedItem α) (hlook : alistLookup store key = some item) :
    (∀ r, (CacheContainer.getItem now store key).response = some r →
        r.state ≠ EntryState.expired) ∧
    (classifyItem now item = EntryState.expired →
        (CacheContainer.getItem now store key).response = none ∧
        alistLookup (CacheContainer.getItem now store key).store key = none) ∧
    (classifyItem now item ≠ EntryState.expired →
        (CacheContainer.getItem now store key).response =
          some { content := item.content, createdAt := item.meta.createdAt
                 ttl := item.meta.ttl, staleTtl := item.meta.staleTtl
                 state := classifyItem now item } ∧
        (CacheContainer.getItem now store key).store = store) := by
  unfold CacheContainer.getItem
  rw [hlook]
  by_cases h : classifyItem now item = EntryState.expired
  · simp [h, alistLookup_remove_self]
  · simp [h]

theorem c4_getItem_never_returns_expired_witness :
    (CacheContainer.getItem 10 ([("k", ⟨"v", ⟨0, some 5, none⟩⟩)] : Store String)
        "k").response = none ∧
    alistLookup (CacheContainer.getItem 10
        ([("k", ⟨"v", ⟨0, some 5, none⟩⟩)] : Store String) "k").store "k" = none :=
  (c4_getItem_never_returns_expired 10 _ "k" ⟨"v", ⟨0, some 5, none⟩⟩ (by decide)).2.1
    (by decide)

/-- Claim C5: an entry stored with `ttl = null` is never classified
`expired`, whatever `now`, `createdAt` and `staleTtl` are, and a read of
such an entry never evicts it (the Storage Port state is unchanged and the
entry is returned). -/
theorem c5_null_ttl_never_expired (now createdAt : Int) (staleTtl : Option Int)
    (content : String) :
    classifyItem now (⟨content, ⟨createdAt, none, staleTtl⟩⟩ : CachedItem String) ≠
        EntryState.expired ∧
    ∀ (store : Store String) (key : String) (item : CachedItem String),
      alistLookup store key = some item → item.meta.ttl = none →
      (CacheContainer.getItem now store key).store = store ∧
      (CacheContainer.getItem now store key).response.isSome = true := by
  constructor
  · simp [classifyItem, isItemExpired, isStaleItem]
  · intro store key item hlook httl
    have hexp : isItemExpired now item = false := by
      unfold isItemExpired
      rw [httl]
    have hcls : classifyItem now item ≠ EntryState.expired := by
      unfold classifyItem isStaleItem
      rw [hexp]
      simp
    unfold CacheContainer.getItem
    rw [hlook]
    simp [hcls]

theorem c5_null_ttl_never_expired_witness :
    classifyItem 100 (⟨"x", ⟨0, none, none⟩⟩ : CachedItem String) ≠ EntryState.expired ∧
    (CacheContainer.getItem 100 ([("k", ⟨"x", ⟨0, none, some 3⟩⟩)] : Store String) "k").store
      = [("k", ⟨"x", ⟨0, none, some 3⟩⟩)] :=
  ⟨(c5_null_ttl_never_expired 100 0 none "x").1,
   ((c5_null_ttl_never_expired 100 0 none "x").2 _ "k" ⟨"x", ⟨0, none, some 3⟩⟩
      (by decide) rfl).1⟩

/-- Claim C6: for an entry with non-null `ttl`, a read exactly at
`createdAt + ttl` classifies it `fresh` (the ttl boundary is inclusive on
the fresh side); one time unit past that boundary it classifies `expired`,
or `stale` when the stored stale boundary covers that instant
(`staleTtl` non-null and `now ≤ createdAt + staleTtl`). -/
theorem c6_ttl_boundary_inclusive_fresh (createdAt t : Int) (staleTtl : Option Int)
    (content : String) :
    classifyItem (createdAt + t)
        (⟨content, ⟨createdAt, some t, staleTtl⟩⟩ : CachedItem String) =
      EntryState.fresh ∧
    classifyItem (createdAt + t + 1)
        (⟨content, ⟨createdAt, some t, staleTtl⟩⟩ : CachedItem String) =
      (match staleTtl with
       | some s =>
          if createdAt + t + 1 ≤ createdAt + s then EntryState.stale
          else EntryState.expired
       | none => EntryState.expired) := by
  constructor
  · have h1 : isItemExpired (createdAt + t)
        (⟨content, ⟨createdAt, some t, staleTtl⟩⟩ : CachedItem String) = false := by
      simp [isItemExpired]
    simp [classifyItem, isStaleItem, h1]
  · have h2 : isItemExpired (createdAt + t + 1)
        (⟨content, ⟨createdAt, some t, staleTtl⟩⟩ : CachedItem String) = true := by
      simp [isItemExpired]
    cases staleTtl with
    | none => simp [classifyItem, isStaleItem, h2]
    | some s =>
        by_cases hs : createdAt + t + 1 ≤ createdAt + s
        · simp [classifyItem, isStaleItem, h2, hs]
        · simp [classifyItem, isStaleItem, h2, hs]

/-- Claim C7, counterexample: the claim asserts that whenever `ttl` and
`staleTtl` are both non-null and `staleTtl < ttl`, the stored stale boundary
is `ttl + staleTtl`. At `ttl = 5`, `staleTtl = 0` (non-null, and `0 < 5`)
the normalization does not fire — JavaScript truthiness treats `0` as falsy
— so the stored boundary is `0`, not `5`, and
`createdAt + ttl < createdAt + staleBoundary` fails. -/
theorem c7_zero_staleTtl_not_adjusted :
    ((alistLookup (CacheContainer.setItem 0 ([] : Store String) "k" "v"
        (some 5) (some 0)).store "k").map fun item => item.meta.staleTtl)
      = some (some 0) ∧
    (some (0 : Int) ≠ some (5 : Int)) ∧
    ¬((0 : Int) + 5 < 0 + 0) := by decide

/-- Claim C7 as amended: for every write where `ttl` and `staleTtl` are both
non-null and additionally non-zero — JavaScript truthiness excludes `0` —
with `0 < staleTtl < ttl`, the stored stale boundary is `ttl + staleTtl`,
and then `createdAt + ttl < createdAt + staleBoundary` holds. -/
theorem c7_positive_staleTtl_adjusted (now : Int) (store : Store String)
    (key content : String) (t st : Int) (hst : 0 < st) (hlt : st < t) :
    ∃ item,
      alistLookup (CacheContainer.setItem now store key content
          (some t) (some st)).store key = some item ∧
      item.meta.staleTtl = some (t + st) ∧
      item.meta.createdAt = now ∧ item.meta.ttl = some t ∧
      now + t < now + (t + st) := by
  refine ⟨⟨content, ⟨now, some t, some (t + st)⟩⟩, ?_, rfl, rfl, rfl, by omega⟩
  have hadj : adjustStaleTtl (some t) (some st) = some (t + st) := by
    unfold adjustStaleTtl
    have h1 : st ≠ 0 := by omega
    have h2 : t ≠ 0 := by omega
    simp [h1, h2, hlt]
  unfold CacheContainer.setItem
  simp [hadj, alistLookup_insert]

theorem c7_positive_staleTtl_adjusted_witness :
    ∃ item,
      alistLookup (CacheContainer.setItem 0 ([] : Store String) "k" "v"
          (some 10) (some 3)).store "k" = some item ∧
      item.meta.staleTtl = some (10 + 3) ∧
      item.meta.createdAt = 0 ∧ item.meta.ttl = some 10 ∧
      (0 : Int) + 10 < 0 + (10 + 3) :=
  c7_positive_staleTtl_adjusted 0 [] "k" "v" 10 3 (by decide) (by decide)

/-- Claim C9, Scenario A: after `setItem("k","v",{ttl:50, staleTtl:100})` at
time 0, reading at t=0 yields content `"v"` in state `fresh`; at t=60 it
yields `"v"` in state `stale` (a `staleTtl` not less than `ttl` is kept as
an absolute boundary from `createdAt`); at t=110 `getItem` returns
`undefined`. -/
theorem c9_scenario_a :
    ((CacheContainer.getItem 0 (CacheContainer.setItem 0 ([] : Store String) "k" "v"
        (some 50) (some 100)).store "k").response.map fun r => (r.content, r.state))
      = some ("v", EntryState.fresh) ∧
    ((CacheContainer.getItem 60 (CacheContainer.setItem 0 ([] : Store String) "k" "v"
        (some 50) (some 100)).store "k").response.map fun r => (r.content, r.state))
      = some ("v", EntryState.stale) ∧
    (CacheContainer.getItem 110 (CacheContainer.setItem 0 ([] : Store String) "k" "v"
        (some 50) (some 100)).store "k").response = none := by decide

/-- Claim C1, evaluated at the failing input: a stored entry that the Cache
Container classifies `stale` (createdAt 0, ttl 50, staleTtl 100, read at
now = 60). The wrapper returns the stale content immediately, but it does
NOT enqueue any background refresh task: the wrapper tests
`cachedResponse.meta.expired` / `.meta.stale`, keys the returned meta
object does not have, so the absent-key reads are falsy, the
valid-response branch fires for stale entries and the SWR enqueue branch
is unreachable. The revalidation queue stays empty and the store is never
refreshed. -/
theorem c1_stale_entry_returns_without_enqueuing_refresh :
    ((CacheContainer.getItem 60
        ([("f:default:h", ⟨"old", ⟨0, some 50, some 100⟩⟩)] : Store String)
        "f:default:h").response.map fun r => r.state) = some EntryState.stale ∧
    (wrapperCall 60 "f" "default" "h" 50 100 1 (fun _ => true)
        (Except.ok "new" : Except String String)
        [("f:default:h", ⟨"old", ⟨0, some 50, some 100⟩⟩)] []).result
      = Except.ok "old" ∧
    ((alistLookup (wrapperCall 60 "f" "default" "h" 50 100 1 (fun _ => true)
        (Except.ok "new" : Except String String)
        [("f:default:h", ⟨"old", ⟨0, some 50, some 100⟩⟩)] []).queues
        "f:default").map fun q => q.runningTasks) = some [] ∧
    (wrapperCall 60 "f" "default" "h" 50 100 1 (fun _ => true)
        (Except.ok "new" : Except String String)
        [("f:default:h", ⟨"old", ⟨0, some 50, some 100⟩⟩)] []).store
      = [("f:default:h", ⟨"old", ⟨0, some 50, some 100⟩⟩)] := by decide

/-- Claim C2, counterexample: with both windows zero the claim says no
storage access occurs, but the wrapper awaits `container.getItem` before
the disabled-check, so a Storage Port read of the computed key does occur. -/
theorem c2_disabled_call_still_reads_storage :
    (wrapperCall 0 "f" "default" "h" 0 0 1 (fun _ => true)
        (Except.ok "v" : Except String String) ([] : Store String) []).trace
      = [StorageOp.read "f:default:h"] ∧
    (wrapperCall 0 "f" "default" "h" 0 0 1 (fun _ => true)
        (Except.ok "v" : Except String String) ([] : Store String) []).trace ≠ [] := by
  decide

/-- Claim C2 as amended: when both resolved windows are zero the wrapper
returns the underlying operation's result unchanged and performs no
`setItem` write on the Storage Port during the call — but a `getItem`
read does occur (the read precedes the disabled-check). -/
theorem c2_disabled_call_runs_operation_and_never_writes (now : Int)
    (fn p kh : String) (conc : Int) (sSt : String → Bool)
    (op : Except String String) (store : Store String) (queues : Registry) :
    (wrapperCall now fn p kh 0 0 conc sSt op store queues).result = op ∧
    ((wrapperCall now fn p kh 0 0 conc sSt op store queues).trace.all
        fun s => !s.isWrite) = true := by
  constructor
  · simp [wrapperCall]
  · have htr : (wrapperCall now fn p kh 0 0 conc sSt op store queues).trace
        = (CacheContainer.getItem now store (fn ++ ":" ++ p ++ ":" ++ kh)).trace := by
      simp [wrapperCall]
    rw [htr]
    exact getItem_trace_no_writes now store _

/-- Claim C3, counterexample: a task with id `"k"` is already admitted but
not yet started (pending, no start time). The claim says a second enqueue
with the same key is a no-op, but the guard only inspects tasks with a
truthy `startTime`, so the duplicate is admitted and two tasks with the
same key are pending simultaneously. -/
theorem c3_pending_task_not_deduplicated :
    (enqueueRefresh ⟨1, [⟨"k", none⟩]⟩ "k").runningTasks
      = [⟨"k", none⟩, ⟨"k", none⟩] ∧
    ((enqueueRefresh ⟨1, [⟨"k", none⟩]⟩ "k").runningTasks.filter
        fun t => t.id == "k").length = 2 := by decide

/-- Claim C3 as amended: deduplication applies only to tasks that have
already started running — enqueueing a key for which some task in the
queue has that id and a truthy start time is a no-op (and the admission
check itself is synchronous, a pure step with no suspension point); a task
that is merely queued and not yet started does not suppress a duplicate
admission. -/
theorem c3_running_task_dedup_no_op (q : PQueue) (key : String) (t : QTask)
    (hmem : t ∈ q.runningTasks) (hid : t.id = key)
    (hrun : truthy t.startTime = true) :
    enqueueRefresh q key = q := by
  unfold enqueueRefresh
  have hany : q.runningTasks.any (fun t => t.id == key && truthy t.startTime) = true := by
    rw [List.any_eq_true]
    exact ⟨t, hmem, by simp [hid, hrun]⟩
  simp [hany]

theorem c3_running_task_dedup_no_op_witness :
    enqueueRefresh ⟨1, [⟨"k", some 1⟩]⟩ "k" = ⟨1, [⟨"k", some 1⟩]⟩ :=
  c3_running_task_dedup_no_op ⟨1, [⟨"k", some 1⟩]⟩ "k" ⟨"k", some 1⟩
    (by decide) rfl (by decide)

/-- Claim C8: on a blocking path (the Cache Container's read produced no
entry — cold cache, or the entry was evicted as expired during the read)
with caching not fully disabled, a rejecting operation propagates its
rejection to the caller, no write is performed on the Storage Port, the
store after the call is exactly the store after the read, and on a truly
cold cache the store is completely unchanged. -/
theorem c8_blocking_failure_propagates_no_write (now : Int) (fn p kh : String)
    (cMs sMs conc : Int) (sSt : String → Bool) (e : String)
    (store : Store String) (queues : Registry)
    (hcfg : ¬(cMs = 0 ∧ sMs = 0))
    (hmiss : (CacheContainer.getItem now store
        (fn ++ ":" ++ p ++ ":" ++ kh)).response = none) :
    (wrapperCall now fn p kh cMs sMs conc sSt (Except.error e) store queues).result
        = Except.error e ∧
    ((wrapperCall now fn p kh cMs sMs conc sSt (Except.error e) store queues).trace.all
        fun s => !s.isWrite) = true ∧
    (wrapperCall now fn p kh cMs sMs conc sSt (Except.error e) store queues).store
        = (CacheContainer.getItem now store (fn ++ ":" ++ p ++ ":" ++ kh)).store ∧
    (alistLookup store (fn ++ ":" ++ p ++ ":" ++ kh) = none →
      (wrapperCall now fn p kh cMs sMs conc sSt (Except.error e) store queues).store
        = store) := by
  have hcond : (cMs == 0 && sMs == 0) = false := by
    by_cases h1 : cMs = 0
    · have h2 : ¬sMs = 0 := fun h2 => hcfg ⟨h1, h2⟩
      simp [h1, h2]
    · simp [h1]
  refine ⟨?_, ?_, ?_, ?_⟩
  · simp [wrapperCall, hcond, hmiss, refreshedItem]
  · have htr : (wrapperCall now fn p kh cMs sMs conc sSt (Except.error e) store queues).trace
        = (CacheContainer.getItem now store (fn ++ ":" ++ p ++ ":" ++ kh)).trace := by
      simp [wrapperCall, hcond, hmiss, refreshedItem]
    rw [htr]
    exact getItem_trace_no_writes now store _
  · simp [wrapperCall, hcond, hmiss, refreshedItem]
  · intro hlk
    have hst : (wrapperCall now fn p kh cMs sMs conc sSt (Except.error e) store queues).store
        = (CacheContainer.getItem now store (fn ++ ":" ++ p ++ ":" ++ kh)).store := by
      simp [wrapperCall, hcond, hmiss, refreshedItem]
    rw [hst]
    exact getItem_store_of_lookup_none now store _ hlk

theorem c8_blocking_failure_propagates_no_write_witness :
    (wrapperCall 0 "f" "p" "h" 5 0 1 (fun _ => true) (Except.error "boom")
        ([] : Store String) []).result = Except.error "boom" ∧
    (wrapperCall 0 "f" "p" "h" 5 0 1 (fun _ => true) (Except.error "boom")
        ([] : Store String) []).store = ([] : Store String) :=
  ⟨(c8_blocking_failure_propagates_no_write 0 "f" "p" "h" 5 0 1 (fun _ => true)
      "boom" [] [] (by decide) (by decide)).1,
   (c8_blocking_failure_propagates_no_write 0 "f" "p" "h" 5 0 1 (fun _ => true)
      "boom" [] [] (by decide) (by decide)).2.2.2 rfl⟩

/-- Claim C10: the queue registry is one module-level table shared by every
wrapper from every factory invocation: two calls with equal function name
and prefix update the registry identically even with different containers
(different stores), different times, key hashes, windows and operations,
provided their configured concurrency is equal; a registry entry, once
present, is never removed (the domain after a call is the old domain plus
the touched queue name); and every call overwrites the touched queue's
concurrency with the calling wrapper's configured value. -/
theorem c10_registry_shared_and_monotone (now1 now2 : Int) (fn p kh1 kh2 : String)
    (cMs1 sMs1 conc1 cMs2 sMs2 conc2 : Int) (sSt1 sSt2 : String → Bool)
    (op1 op2 : Except String String) (store1 store2 : Store String)
    (queues : Registry) :
    (conc1 = conc2 →
      (wrapperCall now1 fn p kh1 cMs1 sMs1 conc1 sSt1 op1 store1 queues).queues =
      (wrapperCall now2 fn p kh2 cMs2 sMs2 conc2 sSt2 op2 store2 queues).queues) ∧
    (∀ n, (alistLookup
        (wrapperCall now1 fn p kh1 cMs1 sMs1 conc1 sSt1 op1 store1 queues).queues
        n).isSome = true ↔
      (n = fn ++ ":" ++ p ∨ (alistLookup queues n).isSome = true)) ∧
    ((alistLookup
        (wrapperCall now1 fn p kh1 cMs1 sMs1 conc1 sSt1 op1 store1 queues).queues
        (fn ++ ":" ++ p)).map fun q => q.concurrency) = some conc1 := by
  refine ⟨?_, ?_, ?_⟩
  · intro hc
    rw [wrapperCall_queues_eq, wrapperCall_queues_eq, hc]
  · intro n
    rw [wrapperCall_queues_eq, alistLookup_insert]
    by_cases h : fn ++ ":" ++ p = n
    · simp [h]
    · have h2 : ¬(n = fn ++ ":" ++ p) := fun hh => h hh.symm
      simp [h, h2]
  · rw [wrapperCall_queues_eq, alistLookup_insert]
    simp

theorem c10_registry_shared_and_monotone_witness :
    (wrapperCall 0 "f" "p" "a" 1 0 3 (fun _ => true)
        (Except.ok "x" : Except String String) ([] : Store String) []).queues =
    (wrapperCall 7 "f" "p" "b" 0 9 3 (fun _ => false)
        (Except.error "e" : Except String String)
        ([("q", ⟨"w", ⟨0, none, none⟩⟩)] : Store String) []).queues ∧
    ((alistLookup (wrapperCall 0 "f" "p" "a" 1 0 3 (fun _ => true)
        (Except.ok "x" : Except String String) ([] : Store String) []).queues
        ("f" ++ ":" ++ "p")).map fun q => q.concurrency) = some 3 :=
  ⟨(c10_registry_shared_and_monotone 0 7 "f" "p" "a" "b" 1 0 3 0 9 3
      (fun _ => true) (fun _ => false) (Except.ok "x") (Except.error "e")
      [] [("q", ⟨"w", ⟨0, none, none⟩⟩)] []).1 rfl,
   (c10_registry_shared_and_monotone 0 7 "f" "p" "a" "b" 1 0 3 0 9 3
      (fun _ => true) (fun _ => false) (Except.ok "x") (Except.error "e")
      [] [("q", ⟨"w", ⟨0, none, none⟩⟩)] []).2.2⟩

end NodeTsCache
